import Mathlib

/-!
Shallow embedding of the SpeakBook reader core (components/BookReader.tsx and
services/geminiService.ts).  The React component is modelled as a state machine:
each event handler runs atomically (single-threaded event loop; React flushes
state updates before the next handler runs), and each `await` point in an async
handler is modelled as an explicit pending phase resolved by a separate event.
Audio source nodes carry an explicit lifecycle (ended / stopped / handler
attached), and assigning over a non-null source ref pushes the old node into an
orphan list, so "two live audio sources" is expressible and refutable.
-/

namespace SpeakBook

/-- VoiceOption from types.ts: MALE and FEMALE. -/
inductive VoiceOption where
  | MALE : VoiceOption
  | FEMALE : VoiceOption
deriving DecidableEq, Repr

/-- An AudioBufferSourceNode's observable lifecycle: whether it has reached its
natural end, whether stop() was called on it, and whether an onended handler is
attached. -/
structure SourceNode where
  ended : Bool
  stopped : Bool
  attached : Bool
deriving DecidableEq, Repr

/-- The word-highlight setInterval handle: the captured totalWords and the fixed
period it was created with, `(audioBuffer.duration * 1000) / totalWords`. -/
structure IntervalInfo where
  totalWords : Nat
  periodMs : Rat
deriving DecidableEq, Repr

/-- The suspended continuation of playCurrentPage: the captured page index and
page text; `data = none` while awaiting generateSpeech, `data = some d` while
awaiting decodeAudioData on payload d. -/
structure PendingPlay where
  page : Nat
  text : String
  data : Option String
deriving DecidableEq, Repr

/-- The BookReader component state plus instrumentation: `orphanSources` holds
source nodes that left the ref (stopped ones, or ones overwritten by a plain
ref assignment), `synthCalls` logs every external synthesis call issued, and
`decodeCalls` logs every payload handed to the decoder. -/
structure State where
  pageTexts : List String
  currentPage : Nat
  voice : VoiceOption
  isPlaying : Bool
  isGenerating : Bool
  highlightedWordIndex : Int
  audioCache : List (Nat × String)
  autoPlay : Bool
  audioSource : Option SourceNode
  orphanSources : List SourceNode
  wordInterval : Option IntervalInfo
  preloadingPage : Option Nat
  pendingPreloads : List Nat
  pendingPlay : Option PendingPlay
  synthCalls : List (String × VoiceOption)
  decodeCalls : List String
deriving DecidableEq, Repr

/-- JS truthiness test `!pageText.trim()`: a text is blank when every
character is whitespace (trimming leaves the empty string). -/
def blank (text : String) : Bool :=
  text.data.all Char.isWhitespace

/-- Word counting over the character sequence: counts maximal non-whitespace
runs, tracking whether the scan is inside a word. -/
def countWordsAux : List Char → Bool → Nat
  | [], _ => 0
  | c :: cs, inWord =>
      if c.isWhitespace then countWordsAux cs false
      else (if inWord then 0 else 1) + countWordsAux cs true

/-- JS `(pageText.match(/\S+/g) || []).length`: the number of maximal
non-whitespace runs in the text. -/
def countWords (text : String) : Nat :=
  countWordsAux text.data false

/-- Map.get on the audio cache (newest insertion wins, matching Map.set
overwrite semantics for the assoc-list representation). -/
def cacheLookup (c : List (Nat × String)) (p : Nat) : Option String :=
  match c with
  | [] => none
  | (q, d) :: t => if q = p then some d else cacheLookup t p

/-- geminiService.generateSpeech: on empty/whitespace-only text it returns the
empty-string sentinel without calling the external service; otherwise it issues
the external call (modelled by the oracle `ext`; `none` = no usable response)
and throws (`none` result) when no audio data comes back.  The Bool records
whether the external service was called. -/
def generateSpeech (ext : String → VoiceOption → Option String)
    (text : String) (voice : VoiceOption) : Option String × Bool :=
  if blank text then (some "", false)
  else
    match ext text voice with
    | some d => if d ≠ "" then (some d, true) else (none, true)
    | none => (none, true)

/-- stopPlayback, lines 30-43: if a source is held, first detach its onended
handler, then stop it (browser semantics: stop() fires the ended event, whose
handler runs only if still attached — the Bool returned records whether a
handler fired during this stop), disconnect, null the ref; always clear the
word-highlight interval, set isPlaying false and highlight -1. -/
def stopPlaybackAux (s : State) : State × Bool :=
  match s.audioSource with
  | none =>
      ({ s with wordInterval := none, isPlaying := false,
                highlightedWordIndex := -1 }, false)
  | some nd =>
      let nd1 : SourceNode := { nd with attached := false }
      let fired := nd1.attached
      let nd2 : SourceNode := { nd1 with stopped := true }
      ({ s with audioSource := none,
                orphanSources := nd2 :: s.orphanSources,
                wordInterval := none, isPlaying := false,
                highlightedWordIndex := -1 }, fired)

/-- The state effect of stopPlayback. -/
def stopPlayback (s : State) : State := (stopPlaybackAux s).1

/-- preloadPage's synchronous prefix, lines 68-75 and the generateSpeech call
issue: guarded on page range, cache miss, not already preloading this page and
non-empty trimmed text; sets the preloading ref and issues the external call,
leaving a pending preload awaiting resolution. -/
def preloadStart (p : Nat) (s : State) : State :=
  if s.pageTexts.length ≤ p ∨ (cacheLookup s.audioCache p).isSome ∨
      s.preloadingPage = some p then s
  else
    let text := s.pageTexts.getD p ""
    if blank text then s
    else
      { s with preloadingPage := some p,
               synthCalls := s.synthCalls ++ [(text, s.voice)],
               pendingPreloads := s.pendingPreloads ++ [p] }

/-- preloadPage's continuation, lines 77-87: on resolution, insert into the
cache only if the payload is truthy (non-empty); on failure just log; finally
clear the preloading ref if it still names this page. -/
def preloadResolve (p : Nat) (res : Option String) (s : State) : State :=
  if p ∈ s.pendingPreloads then
    let s1 := { s with pendingPreloads := s.pendingPreloads.erase p }
    let s2 :=
      match res with
      | some d => if d ≠ "" then { s1 with audioCache := (p, d) :: s1.audioCache }
                  else s1
      | none => s1
    if s2.preloadingPage = some p then { s2 with preloadingPage := none } else s2
  else s

/-- JS truthiness of the audioData variable: absent (undefined) and the empty
string are both falsy. -/
def truthy : Option String → Bool
  | none => false
  | some d => d != ""

/-- playCurrentPage's synchronous prefix, lines 90-116: return if isGenerating;
stopPlayback; isGenerating := true; highlight := -1; read the cached payload;
when it is falsy and the page text is not blank, issue the external synthesis
call and suspend awaiting it; else on a truthy cached payload with a non-zero
word count hand the payload to the decoder and suspend awaiting decode;
otherwise (blank text, falsy payload, or zero words) finish synchronously with
no call, no decode and no session. -/
def playStart (s : State) : State :=
  if s.isGenerating then s
  else
    let s1 := stopPlayback s
    let s2 := { s1 with isGenerating := true, highlightedWordIndex := -1 }
    let page := s2.currentPage
    let text := s2.pageTexts.getD page ""
    let audioData := cacheLookup s2.audioCache page
    if truthy audioData = false ∧ blank text = false then
      { s2 with synthCalls := s2.synthCalls ++ [(text, s2.voice)],
                pendingPlay := some ⟨page, text, none⟩ }
    else if truthy audioData = true ∧ countWords text ≠ 0 then
      { s2 with decodeCalls := s2.decodeCalls ++ [audioData.getD ""],
                pendingPlay := some ⟨page, text, some (audioData.getD "")⟩ }
    else { s2 with isGenerating := false }

/-- playCurrentPage's continuation after `await generateSpeech`, lines 102-116:
on failure (throw) the catch/finally path clears isGenerating; on success the
payload is cached only if truthy, then (if truthy and the captured page text
has words) handed to the decoder, suspending again; otherwise the play finishes
with no session. -/
def fetchResolve (res : Option String) (s : State) : State :=
  match s.pendingPlay with
  | some pf =>
      match pf.data with
      | none =>
          match res with
          | none => { s with pendingPlay := none, isGenerating := false }
          | some d =>
              let s1 := if d ≠ "" then
                          { s with audioCache := (pf.page, d) :: s.audioCache }
                        else s
              if d ≠ "" ∧ countWords pf.text ≠ 0 then
                { s1 with decodeCalls := s1.decodeCalls ++ [d],
                          pendingPlay := some { pf with data := some d } }
              else { s1 with pendingPlay := none, isGenerating := false }
      | some _ => s
  | none => s

/-- playCurrentPage's continuation after `await decodeAudioData`, lines
116-152: on decode failure the catch/finally path clears isGenerating; on
success (yielding the buffer duration in seconds) a fresh source node is
created with its onended handler attached and assigned into the ref (a plain
assignment: any node still in the ref is orphaned un-stopped), isPlaying is
set, the highlight starts at 0, the word interval is created with period
duration*1000/totalWords, the next page's preload is kicked off, and finally
isGenerating is cleared. -/
def decodeResolve (res : Option Rat) (s : State) : State :=
  match s.pendingPlay with
  | some pf =>
      match pf.data with
      | some _ =>
          match res with
          | none => { s with pendingPlay := none, isGenerating := false }
          | some dur =>
              let w := countWords pf.text
              let s1 := { s with
                audioSource := some ⟨false, false, true⟩,
                orphanSources :=
                  match s.audioSource with
                  | some nd => nd :: s.orphanSources
                  | none => s.orphanSources,
                isPlaying := true,
                highlightedWordIndex := 0,
                wordInterval := some ⟨w, dur * 1000 / (w : Rat)⟩,
                pendingPlay := none }
              let s2 := preloadStart (pf.page + 1) s1
              { s2 with isGenerating := false }
      | none => s
  | none => s

/-- The word-highlight interval callback, lines 134-143: advance the index by
one; once the next index would reach totalWords, clear the interval and keep
the index unchanged.  A cleared interval fires no more ticks. -/
def intervalTick (s : State) : State :=
  match s.wordInterval with
  | some iv =>
      let next := s.highlightedWordIndex + 1
      if (iv.totalWords : Int) ≤ next then { s with wordInterval := none }
      else { s with highlightedWordIndex := next }
  | none => s

/-- The useEffect on [currentPage, autoPlay] (non-initial runs), lines 155-169:
stop playback, then either start playing the current page (auto-play on) or
preload the next page. -/
def effectRun (s : State) : State :=
  let s1 := stopPlayback s
  if s1.autoPlay then playStart s1 else preloadStart (s1.currentPage + 1) s1

/-- Natural end of playback: the node in the ref reaches its end (only once,
and not after stop); if its handler is attached, the onended body of lines
121-127 runs: isPlaying := false, clear the interval, and when auto-play is on
and not on the last page, advance the page (which re-runs the page effect). -/
def onended (s : State) : State :=
  match s.audioSource with
  | some nd =>
      if nd.ended ∨ nd.stopped then s
      else
        let s1 := { s with audioSource := some { nd with ended := true } }
        if nd.attached then
          let s2 := { s1 with isPlaying := false, wordInterval := none }
          if s2.autoPlay ∧ s2.currentPage + 1 < s2.pageTexts.length then
            effectRun { s2 with currentPage := s2.currentPage + 1 }
          else s2
        else s1
  | none => s

/-- goToNextPage, lines 179-183: advance only when not on the last page; the
page change re-runs the page effect. -/
def goToNextPage (s : State) : State :=
  if s.currentPage + 1 < s.pageTexts.length then
    effectRun { s with currentPage := s.currentPage + 1 }
  else s

/-- goToPrevPage, lines 185-189: go back only when not on page 0. -/
def goToPrevPage (s : State) : State :=
  if 0 < s.currentPage then
    effectRun { s with currentPage := s.currentPage - 1 }
  else s

/-- Selecting a voice (the voice buttons call setVoice; React skips the update
and the effect when the value is unchanged).  The useEffect on [voice], lines
63-66: stop playback and replace the cache with a fresh empty Map. -/
def chooseVoice (v : VoiceOption) (s : State) : State :=
  if v = s.voice then s
  else
    let s1 := stopPlayback { s with voice := v }
    { s1 with audioCache := [] }

/-- The auto-play toggle flips the flag; since autoPlay is a dependency of the
page effect, the effect re-runs. -/
def toggleAutoPlay (s : State) : State :=
  effectRun { s with autoPlay := !s.autoPlay }

/-- handlePlayPause, lines 171-177: stop when playing, otherwise start playing
the current page. -/
def handlePlayPause (s : State) : State :=
  if s.isPlaying then stopPlayback s else playStart s

/-- The initial component state for a book with the given page texts. -/
def initState (texts : List String) : State where
  pageTexts := texts
  currentPage := 0
  voice := VoiceOption.FEMALE
  isPlaying := false
  isGenerating := false
  highlightedWordIndex := -1
  audioCache := []
  autoPlay := false
  audioSource := none
  orphanSources := []
  wordInterval := none
  preloadingPage := none
  pendingPreloads := []
  pendingPlay := none
  synthCalls := []
  decodeCalls := []

/-- On first mount the page effect only preloads page index 1, lines 156-160. -/
def mountState (texts : List String) : State :=
  preloadStart 1 (initState texts)

/-- Every event the environment or the user can deliver to the component. -/
inductive Event where
  | press : Event
  | next : Event
  | prev : Event
  | pickVoice : VoiceOption → Event
  | toggleAuto : Event
  | fetchDone : Option String → Event
  | decodeDone : Option Rat → Event
  | preloadDone : Nat → Option String → Event
  | tick : Event
  | endedEv : Event

/-- One atomic event-handler turn. -/
def step (e : Event) (s : State) : State :=
  match e with
  | Event.press => handlePlayPause s
  | Event.next => goToNextPage s
  | Event.prev => goToPrevPage s
  | Event.pickVoice v => chooseVoice v s
  | Event.toggleAuto => toggleAutoPlay s
  | Event.fetchDone r => fetchResolve r s
  | Event.decodeDone r => decodeResolve r s
  | Event.preloadDone p r => preloadResolve p r s
  | Event.tick => intervalTick s
  | Event.endedEv => onended s

/-- States reachable from the freshly mounted component by any event sequence. -/
inductive Reachable (texts : List String) : State → Prop where
  | init : Reachable texts (mountState texts)
  | step : ∀ (e : Event) (s : State), Reachable texts s →
      Reachable texts (step e s)

/-- A source node is live while it is neither ended nor stopped. -/
def SourceNode.live (nd : SourceNode) : Bool := !nd.ended && !nd.stopped

/-- The number of live audio source nodes in existence: orphaned ones plus the
one in the ref, if live. -/
def liveCount (s : State) : Nat :=
  s.orphanSources.countP SourceNode.live +
    (match s.audioSource with
     | some nd => if nd.live then 1 else 0
     | none => 0)

/-- The state invariant maintained by every event handler: generation flag
tracks the suspended play; no source node lives while a play is suspended;
every node that ever left the source ref was stopped first; a generating
session is not marked playing; every cache entry holds a non-empty payload for
a page with speakable text; the page index stays in range; a suspended fetch
remembers its page's (non-empty) text; in-flight preloads target speakable
pages; and the empty sentinel never reached the decoder. -/
def Inv (s : State) : Prop :=
  s.isGenerating = s.pendingPlay.isSome ∧
  (∀ pf, s.pendingPlay = some pf → s.audioSource = none) ∧
  (∀ nd ∈ s.orphanSources, nd.stopped = true) ∧
  (s.isGenerating = true → s.isPlaying = false) ∧
  (∀ p d, cacheLookup s.audioCache p = some d →
      d ≠ "" ∧ blank (s.pageTexts.getD p "") = false) ∧
  (s.pageTexts ≠ [] → s.currentPage < s.pageTexts.length) ∧
  (∀ pf, s.pendingPlay = some pf → pf.data = none →
      pf.text = s.pageTexts.getD pf.page "" ∧ blank pf.text = false) ∧
  (∀ p ∈ s.pendingPreloads, blank (s.pageTexts.getD p "") = false) ∧
  "" ∉ s.decodeCalls

/-- The three-page book of the end-to-end auto-play scenario. -/
def book3 : List String := ["Hello world", "", "Third page here"]

/-- The end-to-end auto-play trace over `book3`: mount, enable auto-play
(which starts playing page 0), resolve the fetch and the decode, run the two
word ticks, then let playback of page 0 reach its natural end (auto-advancing
to page 1). -/
def autoPlayTrace : State :=
  step Event.endedEv (step Event.tick (step Event.tick
    (step (Event.decodeDone (some 1)) (step (Event.fetchDone (some "AUDIO"))
      (step Event.toggleAuto (mountState book3))))))

/-- A tiny two-page book used to instantiate theorems with hypotheses. -/
def book2 : List String := ["Hi there", "Second page"]

/-- A quiescent state with a pending decode for a two-word page, used to
instantiate the word-timer theorem. -/
def timerState : State :=
  { initState ["one two"] with
    isGenerating := true
    pendingPlay := some ⟨0, "one two", some "PAYLOAD"⟩ }

/-- A node with an attached handler, used to instantiate stop/voice theorems. -/
def demoSource : SourceNode := ⟨false, false, true⟩

/-- A playing state with a cached page, used to instantiate theorems. -/
def demoState : State :=
  { initState ["a b", "c"] with
    audioSource := some demoSource
    isPlaying := true
    audioCache := [(0, "X")]
    wordInterval := some ⟨2, 500⟩
    highlightedWordIndex := 0 }

/-- A book whose first page is whitespace-only, for the empty-page theorem. -/
def emptyBook : List String := ["   ", "Next page"]

@[simp] lemma cacheLookup_nil (p : Nat) : cacheLookup [] p = none := rfl

@[simp] lemma cacheLookup_cons (q : Nat) (d : String) (c : List (Nat × String))
    (p : Nat) :
    cacheLookup ((q, d) :: c) p = if q = p then some d else cacheLookup c p := rfl

@[simp] lemma truthy_none : truthy none = false := rfl

@[simp] lemma truthy_some (d : String) : truthy (some d) = (d != "") := rfl

lemma truthy_getD_ne (od : Option String) (h : truthy od = true) :
    od.getD "" ≠ "" := by
  cases od with
  | none => exact absurd h (by simp)
  | some d =>
      simp only [truthy_some, bne_iff_ne, ne_eq] at h
      simpa using h

lemma countWordsAux_eq_zero (l : List Char) (b : Bool)
    (h : l.all Char.isWhitespace = true) : countWordsAux l b = 0 := by
  induction l generalizing b with
  | nil => rfl
  | cons c cs ih =>
      simp only [List.all_cons, Bool.and_eq_true] at h
      unfold countWordsAux
      rw [if_pos h.1]
      exact ih false h.2

lemma countWords_eq_zero_of_blank (text : String) (h : blank text = true) :
    countWords text = 0 :=
  countWordsAux_eq_zero text.data false h

@[simp] lemma stopPlayback_pageTexts (s : State) :
    (stopPlayback s).pageTexts = s.pageTexts := by
  unfold stopPlayback stopPlaybackAux; cases s.audioSource <;> rfl

@[simp] lemma stopPlayback_currentPage (s : State) :
    (stopPlayback s).currentPage = s.currentPage := by
  unfold stopPlayback stopPlaybackAux; cases s.audioSource <;> rfl

@[simp] lemma stopPlayback_voice (s : State) :
    (stopPlayback s).voice = s.voice := by
  unfold stopPlayback stopPlaybackAux; cases s.audioSource <;> rfl

@[simp] lemma stopPlayback_isPlaying (s : State) :
    (stopPlayback s).isPlaying = false := by
  unfold stopPlayback stopPlaybackAux; cases s.audioSource <;> rfl

@[simp] lemma stopPlayback_isGenerating (s : State) :
    (stopPlayback s).isGenerating = s.isGenerating := by
  unfold stopPlayback stopPlaybackAux; cases s.audioSource <;> rfl

@[simp] lemma stopPlayback_highlight (s : State) :
    (stopPlayback s).highlightedWordIndex = -1 := by
  unfold stopPlayback stopPlaybackAux; cases s.audioSource <;> rfl

@[simp] lemma stopPlayback_audioCache (s : State) :
    (stopPlayback s).audioCache = s.audioCache := by
  unfold stopPlayback stopPlaybackAux; cases s.audioSource <;> rfl

@[simp] lemma stopPlayback_autoPlay (s : State) :
    (stopPlayback s).autoPlay = s.autoPlay := by
  unfold stopPlayback stopPlaybackAux; cases s.audioSource <;> rfl

@[simp] lemma stopPlayback_audioSource (s : State) :
    (stopPlayback s).audioSource = none := by
  unfold stopPlayback stopPlaybackAux; cases s.audioSource <;> rfl

@[simp] lemma stopPlayback_wordInterval (s : State) :
    (stopPlayback s).wordInterval = none := by
  unfold stopPlayback stopPlaybackAux; cases s.audioSource <;> rfl

@[simp] lemma stopPlayback_preloadingPage (s : State) :
    (stopPlayback s).preloadingPage = s.preloadingPage := by
  unfold stopPlayback stopPlaybackAux; cases s.audioSource <;> rfl

@[simp] lemma stopPlayback_pendingPreloads (s : State) :
    (stopPlayback s).pendingPreloads = s.pendingPreloads := by
  unfold stopPlayback stopPlaybackAux; cases s.audioSource <;> rfl

@[simp] lemma stopPlayback_pendingPlay (s : State) :
    (stopPlayback s).pendingPlay = s.pendingPlay := by
  unfold stopPlayback stopPlaybackAux; cases s.audioSource <;> rfl

@[simp] lemma stopPlayback_synthCalls (s : State) :
    (stopPlayback s).synthCalls = s.synthCalls := by
  unfold stopPlayback stopPlaybackAux; cases s.audioSource <;> rfl

@[simp] lemma stopPlayback_decodeCalls (s : State) :
    (stopPlayback s).decodeCalls = s.decodeCalls := by
  unfold stopPlayback stopPlaybackAux; cases s.audioSource <;> rfl

lemma stopPlayback_orphans (s : State) (nd : SourceNode)
    (h : nd ∈ (stopPlayback s).orphanSources) :
    nd ∈ s.orphanSources ∨ nd.stopped = true := by
  unfold stopPlayback stopPlaybackAux at h
  cases hs : s.audioSource with
  | none => rw [hs] at h; simp at h; exact Or.inl h
  | some nd0 =>
      rw [hs] at h; simp at h
      rcases h with h | h
      · right; rw [h]
      · exact Or.inl h

@[simp] lemma preloadStart_pageTexts (p : Nat) (s : State) :
    (preloadStart p s).pageTexts = s.pageTexts := by
  unfold preloadStart; split; · rfl
  dsimp only; split <;> rfl

@[simp] lemma preloadStart_currentPage (p : Nat) (s : State) :
    (preloadStart p s).currentPage = s.currentPage := by
  unfold preloadStart; split; · rfl
  dsimp only; split <;> rfl

@[simp] lemma preloadStart_voice (p : Nat) (s : State) :
    (preloadStart p s).voice = s.voice := by
  unfold preloadStart; split; · rfl
  dsimp only; split <;> rfl

@[simp] lemma preloadStart_isPlaying (p : Nat) (s : State) :
    (preloadStart p s).isPlaying = s.isPlaying := by
  unfold preloadStart; split; · rfl
  dsimp only; split <;> rfl

@[simp] lemma preloadStart_isGenerating (p : Nat) (s : State) :
    (preloadStart p s).isGenerating = s.isGenerating := by
  unfold preloadStart; split; · rfl
  dsimp only; split <;> rfl

@[simp] lemma preloadStart_highlight (p : Nat) (s : State) :
    (preloadStart p s).highlightedWordIndex = s.highlightedWordIndex := by
  unfold preloadStart; split; · rfl
  dsimp only; split <;> rfl

@[simp] lemma preloadStart_audioCache (p : Nat) (s : State) :
    (preloadStart p s).audioCache = s.audioCache := by
  unfold preloadStart; split; · rfl
  dsimp only; split <;> rfl

@[simp] lemma preloadStart_autoPlay (p : Nat) (s : State) :
    (preloadStart p s).autoPlay = s.autoPlay := by
  unfold preloadStart; split; · rfl
  dsimp only; split <;> rfl

@[simp] lemma preloadStart_audioSource (p : Nat) (s : State) :
    (preloadStart p s).audioSource = s.audioSource := by
  unfold preloadStart; split; · rfl
  dsimp only; split <;> rfl

@[simp] lemma preloadStart_orphanSources (p : Nat) (s : State) :
    (preloadStart p s).orphanSources = s.orphanSources := by
  unfold preloadStart; split; · rfl
  dsimp only; split <;> rfl

@[simp] lemma preloadStart_wordInterval (p : Nat) (s : State) :
    (preloadStart p s).wordInterval = s.wordInterval := by
  unfold preloadStart; split; · rfl
  dsimp only; split <;> rfl

@[simp] lemma preloadStart_pendingPlay (p : Nat) (s : State) :
    (preloadStart p s).pendingPlay = s.pendingPlay := by
  unfold preloadStart; split; · rfl
  dsimp only; split <;> rfl

@[simp] lemma preloadStart_decodeCalls (p : Nat) (s : State) :
    (preloadStart p s).decodeCalls = s.decodeCalls := by
  unfold preloadStart; split; · rfl
  dsimp only; split <;> rfl

lemma preloadStart_pendingPreloads_mem (p q : Nat) (s : State)
    (h : q ∈ (preloadStart p s).pendingPreloads) :
    q ∈ s.pendingPreloads ∨ (q = p ∧ blank (s.pageTexts.getD p "") = false) := by
  unfold preloadStart at h
  split at h; · exact Or.inl h
  dsimp only at h
  split at h; · exact Or.inl h
  next htrim =>
    simp at h
    rcases h with h | h
    · exact Or.inl h
    · exact Or.inr ⟨h, by simpa using htrim⟩

lemma inv_stopPlayback (s : State) (h : Inv s) : Inv (stopPlayback s) := by
  obtain ⟨h1, h2, h3, h4, h5, h6, h7, h8, h9⟩ := h
  refine ⟨by simpa using h1, by simp, ?_, by simp, by simpa using h5,
    by simpa using h6, by simpa using h7, by simpa using h8, by simpa using h9⟩
  intro nd hnd
  rcases stopPlayback_orphans s nd hnd with h | h
  · exact h3 nd h
  · exact h

lemma inv_preloadStart (p : Nat) (s : State) (h : Inv s) :
    Inv (preloadStart p s) := by
  obtain ⟨h1, h2, h3, h4, h5, h6, h7, h8, h9⟩ := h
  refine ⟨by simpa using h1, by simpa using h2, by simpa using h3,
    by simpa using h4, by simpa using h5, by simpa using h6,
    by simpa using h7, ?_, by simpa using h9⟩
  intro q hq
  rcases preloadStart_pendingPreloads_mem p q s hq with hmem | ⟨rfl, htrim⟩
  · simpa using h8 q hmem
  · simpa using htrim

lemma inv_playStart (s : State) (h : Inv s) : Inv (playStart s) := by
  have hstop := inv_stopPlayback s h
  obtain ⟨g1, g2, g3, g4, g5, g6, g7, g8, g9⟩ := hstop
  have i1 := h.1
  unfold playStart
  split
  · exact h
  next hgen =>
    have hgen2 : s.isGenerating = false := by simpa using hgen
    have hpend : s.pendingPlay = none := by
      rw [hgen2] at i1
      cases hp : s.pendingPlay with
      | none => rfl
      | some pf => rw [hp] at i1; simp at i1
    dsimp only
    split
    next hcond =>
      refine ⟨by simp, by simp, by simpa using g3, by simp,
        by simpa using g5, by simpa using g6, ?_, by simpa using g8,
        by simpa using g9⟩
      intro pf hpf _
      simp only [State.pendingPlay, Option.some.injEq] at hpf
      rw [← hpf]
      exact ⟨by simp, by simpa using hcond.2⟩
    next hc1 =>
      split
      next hcond =>
        refine ⟨by simp, by simp, by simpa using g3, by simp,
          by simpa using g5, by simpa using g6, by simp, by simpa using g8,
          ?_⟩
        have hne := truthy_getD_ne _ hcond.1
        simp only [State.decodeCalls, stopPlayback_decodeCalls] at g9 ⊢
        simp only [List.mem_append, List.mem_singleton]
        rintro (hmem | hcontra)
        · exact g9 (by simpa using hmem)
        · exact hne hcontra.symm
      next hcond =>
        refine ⟨by simp [hpend], by simp [hpend], by simpa using g3,
          by simp, by simpa using g5, by simpa using g6, by simp [hpend],
          by simpa using g8, by simpa using g9⟩


lemma cacheLookup_insert_forall {P : Nat → String → Prop}
    (c : List (Nat × String)) (q : Nat) (d : String)
    (hc : ∀ p e, cacheLookup c p = some e → P p e) (hq : P q d) :
    ∀ p e, cacheLookup ((q, d) :: c) p = some e → P p e := by
  intro p e hpe
  rw [cacheLookup_cons] at hpe
  by_cases hqp : q = p
  · rw [if_pos hqp] at hpe
    injection hpe with he
    subst he; subst hqp; exact hq
  · rw [if_neg hqp] at hpe
    exact hc p e hpe

lemma inv_fetchResolve (r : Option String) (s : State) (h : Inv s) :
    Inv (fetchResolve r s) := by
  obtain ⟨h1, h2, h3, h4, h5, h6, h7, h8, h9⟩ := id h
  unfold fetchResolve
  split
  next pf hpf =>
    have hgen : s.isGenerating = true := by rw [h1, hpf]; rfl
    split
    next hdata =>
      obtain ⟨htext, htrim⟩ := h7 pf hpf hdata
      split
      next =>
        refine ⟨by simp, ?_, by simpa using h3, by simp, by simpa using h5,
          by simpa using h6, ?_, by simpa using h8, by simpa using h9⟩
        · intro pf' hpf'; simp at hpf'
        · intro pf' hpf'; simp at hpf'
      next d =>
        dsimp only
        by_cases hd : d = ""
        · simp only [hd, ne_eq, not_true_eq_false, if_false, false_and,
            ite_false]
          refine ⟨by simp, ?_, by simpa using h3, by simp, by simpa using h5,
            by simpa using h6, ?_, by simpa using h8, by simpa using h9⟩
          · intro pf' hpf'; simp at hpf'
          · intro pf' hpf'; simp at hpf'
        · have hcache : ∀ p e,
              cacheLookup ((pf.page, d) :: s.audioCache) p = some e →
                e ≠ "" ∧ blank (s.pageTexts.getD p "") = false :=
            cacheLookup_insert_forall _ _ _ h5 ⟨hd, by rw [← htext]; exact htrim⟩
          simp only [ne_eq, hd, not_false_eq_true, if_true, true_and]
          split
          next hw =>
            refine ⟨by simp [hgen], ?_, by simpa using h3, ?_,
              by simpa using hcache, by simpa using h6, ?_,
              by simpa using h8, ?_⟩
            · intro pf' _; simpa using h2 pf hpf
            · intro _; simpa using h4 hgen
            · intro pf' hpf' hdata'
              simp only [State.pendingPlay, Option.some.injEq] at hpf'
              rw [← hpf'] at hdata'
              simp at hdata'
            · simp only [State.decodeCalls]
              simp only [List.mem_append, List.mem_singleton]
              rintro (hm | hm)
              · exact h9 hm
              · exact hd hm.symm
          next hw =>
            refine ⟨by simp, ?_, by simpa using h3, by simp,
              by simpa using hcache, by simpa using h6, ?_,
              by simpa using h8, by simpa using h9⟩
            · intro pf' hpf'; simp at hpf'
            · intro pf' hpf'; simp at hpf'
    next d hdata => exact h
  next => exact h

lemma inv_decodeResolve (r : Option Rat) (s : State) (h : Inv s) :
    Inv (decodeResolve r s) := by
  obtain ⟨h1, h2, h3, h4, h5, h6, h7, h8, h9⟩ := id h
  unfold decodeResolve
  split
  next pf hpf =>
    split
    next d hdata =>
      split
      next =>
        refine ⟨by simp, ?_, by simpa using h3, by simp, by simpa using h5,
          by simpa using h6, ?_, by simpa using h8, by simpa using h9⟩
        · intro pf' hpf'; simp at hpf'
        · intro pf' hpf'; simp at hpf'
      next dur =>
        dsimp only
        have hsrc : s.audioSource = none := h2 pf hpf
        rw [hsrc]
        refine ⟨by simp, ?_, by simpa using h3, by simp, by simpa using h5,
          by simpa using h6, ?_, ?_, by simpa using h9⟩
        · intro pf' hpf'; simp at hpf'
        · intro pf' hpf'; simp at hpf'
        · intro q hq
          simp only [State.pendingPreloads] at hq
          rcases preloadStart_pendingPreloads_mem _ _ _ hq with hmem |
            ⟨rfl, htrim⟩
          · simpa using h8 q (by simpa using hmem)
          · simpa using htrim
    next => exact h
  next => exact h

lemma inv_preloadResolve (p : Nat) (r : Option String) (s : State)
    (h : Inv s) : Inv (preloadResolve p r s) := by
  obtain ⟨h1, h2, h3, h4, h5, h6, h7, h8, h9⟩ := id h
  unfold preloadResolve
  split
  next hmem =>
    have htr := h8 p hmem
    have h8e : ∀ q ∈ s.pendingPreloads.erase p,
        blank (s.pageTexts.getD q "") = false :=
      fun q hq => h8 q (List.mem_of_mem_erase hq)
    dsimp only
    cases r with
    | none =>
        dsimp only
        split <;>
          exact ⟨by simpa using h1, by simpa using h2, by simpa using h3,
            by simpa using h4, by simpa using h5, by simpa using h6,
            by simpa using h7, by simpa using h8e, by simpa using h9⟩
    | some d =>
        dsimp only
        by_cases hd : d = ""
        · simp only [hd, ne_eq, not_true_eq_false, ite_false]
          split <;>
            exact ⟨by simpa using h1, by simpa using h2, by simpa using h3,
              by simpa using h4, by simpa using h5, by simpa using h6,
              by simpa using h7, by simpa using h8e, by simpa using h9⟩
        · have hcache : ∀ q e,
              cacheLookup ((p, d) :: s.audioCache) q = some e →
                e ≠ "" ∧ blank (s.pageTexts.getD q "") = false :=
            cacheLookup_insert_forall _ _ _ h5 ⟨hd, htr⟩
          simp only [ne_eq, hd, not_false_eq_true, if_true]
          split <;>
            exact ⟨by simpa using h1, by simpa using h2, by simpa using h3,
              by simpa using h4, by simpa using hcache, by simpa using h6,
              by simpa using h7, by simpa using h8e, by simpa using h9⟩
  next => exact h

lemma inv_effectRun (s : State) (h : Inv s) : Inv (effectRun s) := by
  unfold effectRun
  dsimp only
  split
  · exact inv_playStart _ (inv_stopPlayback _ h)
  · exact inv_preloadStart _ _ (inv_stopPlayback _ h)

lemma inv_intervalTick (s : State) (h : Inv s) : Inv (intervalTick s) := by
  obtain ⟨h1, h2, h3, h4, h5, h6, h7, h8, h9⟩ := h
  unfold intervalTick
  split
  · dsimp only
    split
    · exact ⟨by simpa using h1, by simpa using h2, by simpa using h3,
        by simpa using h4, by simpa using h5, by simpa using h6,
        by simpa using h7, by simpa using h8, by simpa using h9⟩
    · exact ⟨by simpa using h1, by simpa using h2, by simpa using h3,
        by simpa using h4, by simpa using h5, by simpa using h6,
        by simpa using h7, by simpa using h8, by simpa using h9⟩
  · exact ⟨h1, h2, h3, h4, h5, h6, h7, h8, h9⟩


lemma inv_onended (s : State) (h : Inv s) : Inv (onended s) := by
  obtain ⟨h1, h2, h3, h4, h5, h6, h7, h8, h9⟩ := id h
  unfold onended
  split
  next nd hnd =>
    split
    · exact h
    next hlive =>
      have hpend : s.pendingPlay = none := by
        cases hp : s.pendingPlay with
        | none => rfl
        | some pf =>
            have h0 := h2 pf hp
            rw [h0] at hnd
            exact absurd hnd (by simp)
      have hgen : s.isGenerating = false := by rw [h1, hpend]; rfl
      dsimp only
      split
      · split
        next hcond =>
          apply inv_effectRun
          refine ⟨by simp [hgen, hpend], ?_, by simpa using h3,
            by simp [hgen], by simpa using h5, ?_, ?_, by simpa using h8,
            by simpa using h9⟩
          · intro pf hpf; simp [hpend] at hpf
          · intro _; simpa using hcond.2
          · intro pf hpf; simp [hpend] at hpf
        next =>
          refine ⟨by simp [hgen, hpend], ?_, by simpa using h3,
            by simp [hgen], by simpa using h5, by simpa using h6, ?_,
            by simpa using h8, by simpa using h9⟩
          · intro pf hpf; simp [hpend] at hpf
          · intro pf hpf; simp [hpend] at hpf
      · refine ⟨by simp [hgen, hpend], ?_, by simpa using h3,
          by simp [hgen], by simpa using h5, by simpa using h6, ?_,
          by simpa using h8, by simpa using h9⟩
        · intro pf hpf; simp [hpend] at hpf
        · intro pf hpf; simp [hpend] at hpf
  next => exact h

lemma inv_goToNextPage (s : State) (h : Inv s) : Inv (goToNextPage s) := by
  obtain ⟨h1, h2, h3, h4, h5, h6, h7, h8, h9⟩ := id h
  unfold goToNextPage
  split
  next hlt =>
    apply inv_effectRun
    refine ⟨by simpa using h1, by simpa using h2, by simpa using h3,
      by simpa using h4, by simpa using h5, ?_, by simpa using h7,
      by simpa using h8, by simpa using h9⟩
    intro _; simpa using hlt
  next => exact h

lemma inv_goToPrevPage (s : State) (h : Inv s) : Inv (goToPrevPage s) := by
  obtain ⟨h1, h2, h3, h4, h5, h6, h7, h8, h9⟩ := id h
  unfold goToPrevPage
  split
  next hpos =>
    apply inv_effectRun
    refine ⟨by simpa using h1, by simpa using h2, by simpa using h3,
      by simpa using h4, by simpa using h5, ?_, by simpa using h7,
      by simpa using h8, by simpa using h9⟩
    intro hne
    have := h6 (by simpa using hne)
    simp only [State.currentPage, State.pageTexts]
    omega
  next => exact h

lemma inv_chooseVoice (v : VoiceOption) (s : State) (h : Inv s) :
    Inv (chooseVoice v s) := by
  obtain ⟨h1, h2, h3, h4, h5, h6, h7, h8, h9⟩ := id h
  unfold chooseVoice
  split
  · exact h
  · dsimp only
    have hsv : Inv { s with voice := v } :=
      ⟨by simpa using h1, by simpa using h2, by simpa using h3,
        by simpa using h4, by simpa using h5, by simpa using h6,
        by simpa using h7, by simpa using h8, by simpa using h9⟩
    obtain ⟨g1, g2, g3, g4, g5, g6, g7, g8, g9⟩ :=
      inv_stopPlayback { s with voice := v } hsv
    refine ⟨by simpa using g1, by simpa using g2, by simpa using g3,
      by simpa using g4, ?_, by simpa using g6, by simpa using g7,
      by simpa using g8, by simpa using g9⟩
    intro p d hpd
    simp at hpd

lemma inv_toggleAutoPlay (s : State) (h : Inv s) : Inv (toggleAutoPlay s) := by
  obtain ⟨h1, h2, h3, h4, h5, h6, h7, h8, h9⟩ := id h
  unfold toggleAutoPlay
  apply inv_effectRun
  exact ⟨by simpa using h1, by simpa using h2, by simpa using h3,
    by simpa using h4, by simpa using h5, by simpa using h6,
    by simpa using h7, by simpa using h8, by simpa using h9⟩

lemma inv_handlePlayPause (s : State) (h : Inv s) :
    Inv (handlePlayPause s) := by
  unfold handlePlayPause
  split
  · exact inv_stopPlayback _ h
  · exact inv_playStart _ h

lemma inv_step (e : Event) (s : State) (h : Inv s) : Inv (step e s) := by
  cases e with
  | press => exact inv_handlePlayPause s h
  | next => exact inv_goToNextPage s h
  | prev => exact inv_goToPrevPage s h
  | pickVoice v => exact inv_chooseVoice v s h
  | toggleAuto => exact inv_toggleAutoPlay s h
  | fetchDone r => exact inv_fetchResolve r s h
  | decodeDone r => exact inv_decodeResolve r s h
  | preloadDone p r => exact inv_preloadResolve p r s h
  | tick => exact inv_intervalTick s h
  | endedEv => exact inv_onended s h

lemma inv_initState (texts : List String) : Inv (initState texts) := by
  refine ⟨rfl, ?_, ?_, ?_, ?_, ?_, ?_, ?_, ?_⟩ <;>
    simp [initState]
  exact fun h => List.length_pos.mpr h

lemma reachable_inv (texts : List String) (s : State)
    (h : Reachable texts s) : Inv s := by
  induction h with
  | init => exact inv_preloadStart 1 _ (inv_initState texts)
  | step e s' _ ih => exact inv_step e s' ih

@[simp] lemma playStart_pageTexts (s : State) :
    (playStart s).pageTexts = s.pageTexts := by
  unfold playStart; split; · rfl
  dsimp only
  split; · simp
  split <;> simp

@[simp] lemma effectRun_pageTexts (s : State) :
    (effectRun s).pageTexts = s.pageTexts := by
  unfold effectRun; dsimp only; split <;> simp

@[simp] lemma fetchResolve_pageTexts (r : Option String) (s : State) :
    (fetchResolve r s).pageTexts = s.pageTexts := by
  unfold fetchResolve
  split
  next pf hpf =>
    split
    · split
      · simp
      next d =>
          dsimp only
          by_cases hd : d = "" <;> simp [hd] <;> split <;> simp
    · rfl
  · rfl

@[simp] lemma decodeResolve_pageTexts (r : Option Rat) (s : State) :
    (decodeResolve r s).pageTexts = s.pageTexts := by
  unfold decodeResolve
  split
  next pf hpf =>
    split
    · split
      · simp
      · dsimp only; simp
    · rfl
  · rfl

@[simp] lemma preloadResolve_pageTexts (p : Nat) (r : Option String)
    (s : State) : (preloadResolve p r s).pageTexts = s.pageTexts := by
  unfold preloadResolve
  split
  · dsimp only
    cases r with
    | none => dsimp only; split <;> simp
    | some d =>
        dsimp only
        by_cases hd : d = "" <;> simp [hd] <;> split <;> simp
  · rfl

@[simp] lemma intervalTick_pageTexts (s : State) :
    (intervalTick s).pageTexts = s.pageTexts := by
  unfold intervalTick
  split
  · dsimp only; split <;> simp
  · rfl

@[simp] lemma onended_pageTexts (s : State) :
    (onended s).pageTexts = s.pageTexts := by
  unfold onended
  split
  next nd hnd =>
    split
    · rfl
    · dsimp only
      split
      · split
        · simp
        · simp
      · simp
  · rfl

@[simp] lemma goToNextPage_pageTexts (s : State) :
    (goToNextPage s).pageTexts = s.pageTexts := by
  unfold goToNextPage; split <;> simp

@[simp] lemma goToPrevPage_pageTexts (s : State) :
    (goToPrevPage s).pageTexts = s.pageTexts := by
  unfold goToPrevPage; split <;> simp

@[simp] lemma chooseVoice_pageTexts (v : VoiceOption) (s : State) :
    (chooseVoice v s).pageTexts = s.pageTexts := by
  unfold chooseVoice; split
  · rfl
  · dsimp only; simp

@[simp] lemma toggleAutoPlay_pageTexts (s : State) :
    (toggleAutoPlay s).pageTexts = s.pageTexts := by
  unfold toggleAutoPlay; simp

@[simp] lemma handlePlayPause_pageTexts (s : State) :
    (handlePlayPause s).pageTexts = s.pageTexts := by
  unfold handlePlayPause; split <;> simp

lemma step_pageTexts (e : Event) (s : State) :
    (step e s).pageTexts = s.pageTexts := by
  cases e <;> simp [step]

lemma reachable_pageTexts (texts : List String) (s : State)
    (h : Reachable texts s) : s.pageTexts = texts := by
  induction h with
  | init => simp [mountState, initState]
  | step e s' _ ih => rw [step_pageTexts]; exact ih

lemma inv_liveCount (s : State) (h : Inv s) : liveCount s ≤ 1 := by
  obtain ⟨-, -, h3, -, -, -, -, -, -⟩ := h
  unfold liveCount
  have hz : s.orphanSources.countP SourceNode.live = 0 := by
    rw [List.countP_eq_zero]
    intro nd hnd
    have hs := h3 nd hnd
    simp [SourceNode.live, hs]
  rw [hz]
  cases s.audioSource with
  | none => simp
  | some nd => cases hl : nd.live <;> simp [hl]

lemma stopPlayback_stops_old (s : State) (nd : SourceNode)
    (h : s.audioSource = some nd) :
    { nd with attached := false, stopped := true } ∈
      (stopPlayback s).orphanSources := by
  unfold stopPlayback stopPlaybackAux
  rw [h]
  exact List.mem_cons_self _ _

lemma playStart_fields_of_not_generating (s : State)
    (hgen : s.isGenerating = false) :
    (playStart s).audioSource = none ∧ (playStart s).wordInterval = none ∧
    (playStart s).isPlaying = false := by
  unfold playStart
  rw [if_neg (by simp [hgen])]
  dsimp only
  split; · simp
  split <;> simp

lemma playStart_orphans_of_not_generating (s : State)
    (hgen : s.isGenerating = false) :
    (playStart s).orphanSources = (stopPlayback s).orphanSources := by
  unfold playStart
  rw [if_neg (by simp [hgen])]
  dsimp only
  split; · simp
  split <;> simp

lemma playStart_miss (s : State) (P : Nat) (text : String)
    (hpage : s.currentPage = P) (htext : s.pageTexts.getD P "" = text)
    (hne : blank text = false) (hgen : s.isGenerating = false)
    (hmiss : cacheLookup s.audioCache P = none) :
    (playStart s).synthCalls = s.synthCalls ++ [(text, s.voice)] ∧
    (playStart s).pendingPlay = some ⟨P, text, none⟩ ∧
    (playStart s).audioCache = s.audioCache := by
  unfold playStart
  rw [if_neg (by simp [hgen])]
  dsimp only
  split
  next hcond =>
    refine ⟨?_, ?_, by simp⟩
    · simp only [State.synthCalls, stopPlayback_currentPage,
        stopPlayback_pageTexts, stopPlayback_synthCalls, stopPlayback_voice,
        hpage]
      rw [htext]
    · simp only [State.pendingPlay, stopPlayback_currentPage,
        stopPlayback_pageTexts, hpage]
      rw [htext]
  next hcond =>
    exfalso
    apply hcond
    constructor
    · simp only [stopPlayback_audioCache, stopPlayback_currentPage]
      rw [hpage, hmiss]
      rfl
    · simp only [stopPlayback_pageTexts, stopPlayback_currentPage]
      rw [hpage, htext]
      exact hne


lemma playStart_hit_no_call (t : State) (P : Nat) (d : String)
    (hd : d ≠ "") (hpage : t.currentPage = P) (hgen : t.isGenerating = false)
    (hhit : cacheLookup t.audioCache P = some d) :
    (playStart t).synthCalls = t.synthCalls := by
  unfold playStart
  rw [if_neg (by simp [hgen])]
  dsimp only
  split
  next hcond =>
    exfalso
    have h1 := hcond.1
    simp only [stopPlayback_audioCache, stopPlayback_currentPage] at h1
    rw [hpage, hhit] at h1
    have : d = "" := by simpa using h1
    exact hd this
  next hcond =>
    split <;> simp


lemma tick_iter (W : Nat) (q : Rat) (t : State) (hW : 1 ≤ W)
    (hiv : t.wordInterval = some ⟨W, q⟩) (hidx : t.highlightedWordIndex = 0) :
    ∀ n : Nat, intervalTick^[n] t =
      if n < W then { t with highlightedWordIndex := (n : Int) }
      else { t with highlightedWordIndex := (W : Int) - 1,
                    wordInterval := none } := by
  intro n
  induction n with
  | zero =>
      rw [Function.iterate_zero_apply, if_pos (by omega)]
      rw [Nat.cast_zero, ← hidx]
  | succ n ih =>
      rw [Function.iterate_succ_apply', ih]
      by_cases h1 : n < W
      · rw [if_pos h1]
        unfold intervalTick
        dsimp only
        rw [hiv]
        dsimp only
        by_cases h2 : n + 1 < W
        · rw [if_pos h2, if_neg (by push_cast; omega)]
          have hc : (n : Int) + 1 = ((n + 1 : Nat) : Int) := by push_cast; ring
          rw [hc]
        · rw [if_neg h2, if_pos (by push_cast; omega)]
          have hc : (n : Int) = (W : Int) - 1 := by push_cast; omega
          rw [hc]
      · rw [if_neg h1]
        unfold intervalTick
        dsimp only
        rw [if_neg (by omega)]

/-- C1: at most one playback session is playing at any instant.  For every
reachable state the number of live (started, neither stopped nor ended) audio
source nodes is at most one; and whenever playCurrentPage proceeds (not
generating), the synchronous prefix that precedes any fetch/decode leaves no
source node in the ref and no word-highlight interval, and the previous source
node, if any, has been detached and stopped. -/
theorem single_live_audio_source (texts : List String) (s : State)
    (h : Reachable texts s) :
    liveCount s ≤ 1 ∧
    (s.isGenerating = false →
      liveCount (playStart s) ≤ 1 ∧
      (playStart s).audioSource = none ∧
      (playStart s).wordInterval = none ∧
      (∀ nd, s.audioSource = some nd →
        { nd with attached := false, stopped := true } ∈
          (playStart s).orphanSources)) := by
  have hInv := reachable_inv texts s h
  refine ⟨inv_liveCount s hInv, ?_⟩
  intro hgen
  obtain ⟨ha, hb, -⟩ := playStart_fields_of_not_generating s hgen
  refine ⟨inv_liveCount _ (inv_playStart s hInv), ha, hb, ?_⟩
  intro nd hnd
  rw [playStart_orphans_of_not_generating s hgen]
  exact stopPlayback_stops_old s nd hnd

/-- Witness for C1 at the freshly mounted two-page book. -/
theorem single_live_audio_source_witness :
    liveCount (mountState book2) ≤ 1 ∧
    ((mountState book2).isGenerating = false →
      liveCount (playStart (mountState book2)) ≤ 1 ∧
      (playStart (mountState book2)).audioSource = none ∧
      (playStart (mountState book2)).wordInterval = none ∧
      (∀ nd, (mountState book2).audioSource = some nd →
        { nd with attached := false, stopped := true } ∈
          (playStart (mountState book2)).orphanSources)) :=
  single_live_audio_source book2 (mountState book2) Reachable.init

/-- C8: pressing play while a generation is in flight is rejected: the press
is a complete no-op and cannot create a second audio source. -/
theorem play_press_during_generation_rejected (texts : List String)
    (s : State) (h : Reachable texts s) (hgen : s.isGenerating = true) :
    handlePlayPause s = s ∧ liveCount (handlePlayPause s) ≤ 1 := by
  have hInv := reachable_inv texts s h
  obtain ⟨i1, i2, i3, i4, i5, i6, i7, i8, i9⟩ := id hInv
  have hplay : s.isPlaying = false := i4 hgen
  have heq : handlePlayPause s = s := by
    unfold handlePlayPause
    rw [if_neg (by simp [hplay])]
    unfold playStart
    rw [if_pos hgen]
  refine ⟨heq, ?_⟩
  rw [heq]
  exact inv_liveCount s hInv

/-- Witness for C8: after a first press on the mounted book a fetch is in
flight, and a second press is a no-op. -/
theorem play_press_during_generation_rejected_witness :
    (step Event.press (mountState book2)).isGenerating = true ∧
    handlePlayPause (step Event.press (mountState book2)) =
      step Event.press (mountState book2) := by
  refine ⟨by decide, ?_⟩
  exact (play_press_during_generation_rejected book2 _
    (Reachable.step Event.press _ Reachable.init) (by decide)).1

/-- C10: every cache entry, inserted by the foreground play path or the
background preload, holds a non-empty payload; the empty sentinel is never
cached. -/
theorem cache_payloads_nonempty (texts : List String) (s : State)
    (h : Reachable texts s) :
    ∀ p d, cacheLookup s.audioCache p = some d → d ≠ "" := by
  intro p d hpd
  obtain ⟨-, -, -, -, i5, -, -, -, -⟩ := reachable_inv texts s h
  exact (i5 p d hpd).1

/-- Witness for C10 at a reachable state whose cache holds one entry. -/
theorem cache_payloads_nonempty_witness :
    cacheLookup (step (Event.fetchDone (some "X"))
      (step Event.press (mountState book2))).audioCache 0 = some "X" ∧
    ("X" : String) ≠ "" := by
  refine ⟨by decide, ?_⟩
  exact cache_payloads_nonempty book2 _
    (Reachable.step (Event.fetchDone (some "X")) _
      (Reachable.step Event.press _ Reachable.init)) 0 "X" (by decide)

/-- C9: the current page index stays within bounds; next/advance are no-ops on
the last page and prev is a no-op on page 0. -/
theorem page_index_in_bounds (texts : List String) (s : State)
    (h : Reachable texts s) (hne : texts ≠ []) :
    s.currentPage < texts.length ∧
    (goToNextPage s).currentPage < texts.length ∧
    (goToPrevPage s).currentPage < texts.length ∧
    (onended s).currentPage < texts.length ∧
    (s.currentPage + 1 = texts.length → goToNextPage s = s) ∧
    (s.currentPage = 0 → goToPrevPage s = s) ∧
    (s.currentPage + 1 = texts.length →
      (onended s).currentPage = s.currentPage) := by
  have hpt := reachable_pageTexts texts s h
  have bound : ∀ s', Reachable texts s' → s'.currentPage < texts.length := by
    intro s' h'
    obtain ⟨-, -, -, -, -, i6, -, -, -⟩ := reachable_inv texts s' h'
    rw [reachable_pageTexts texts s' h'] at i6
    exact i6 hne
  refine ⟨bound s h, bound _ (Reachable.step Event.next s h),
    bound _ (Reachable.step Event.prev s h),
    bound _ (Reachable.step Event.endedEv s h), ?_, ?_, ?_⟩
  · intro hlast
    unfold goToNextPage
    rw [if_neg (by rw [hpt]; omega)]
  · intro h0
    unfold goToPrevPage
    rw [if_neg (by omega)]
  · intro hlast
    unfold onended
    cases hsrc : s.audioSource with
    | none => rfl
    | some nd =>
        dsimp only
        split
        · rfl
        · split
          · split
            next hc =>
              exfalso
              have hlt := hc.2
              simp only [State.currentPage, State.pageTexts] at hlt
              rw [hpt] at hlt
              omega
            next => simp
          · simp
  
/-- Witness for C9 at the freshly mounted two-page book. -/
theorem page_index_in_bounds_witness :
    book2 ≠ [] ∧ (mountState book2).currentPage < book2.length := by
  refine ⟨by decide, ?_⟩
  exact (page_index_in_bounds book2 _ Reachable.init (by decide)).1

/-- C5: selecting a different voice stops playback (detaching and stopping any
live source), empties the whole audio cache (every page is a cache miss
afterwards), and leaves the session stopped on the same page without starting
any new fetch or playback. -/
theorem voice_change_stops_and_clears_cache (s : State) (v : VoiceOption)
    (hv : v ≠ s.voice) :
    (chooseVoice v s).audioCache = [] ∧
    (∀ p, cacheLookup (chooseVoice v s).audioCache p = none) ∧
    (chooseVoice v s).voice = v ∧
    (chooseVoice v s).isPlaying = false ∧
    (chooseVoice v s).audioSource = none ∧
    (chooseVoice v s).wordInterval = none ∧
    (chooseVoice v s).highlightedWordIndex = -1 ∧
    (chooseVoice v s).currentPage = s.currentPage ∧
    (chooseVoice v s).synthCalls = s.synthCalls ∧
    (chooseVoice v s).isGenerating = s.isGenerating ∧
    (chooseVoice v s).pendingPlay = s.pendingPlay ∧
    (∀ nd, s.audioSource = some nd →
      { nd with attached := false, stopped := true } ∈
        (chooseVoice v s).orphanSources) := by
  unfold chooseVoice
  rw [if_neg hv]
  dsimp only
  refine ⟨by simp, by simp, by simp, by simp, by simp, by simp, by simp,
    by simp, by simp, by simp, by simp, ?_⟩
  intro nd hnd
  exact stopPlayback_stops_old { s with voice := v } nd (by simpa using hnd)

/-- Witness for C5 at a playing state with a cached page. -/
theorem voice_change_stops_and_clears_cache_witness :
    (chooseVoice VoiceOption.MALE demoState).audioCache = [] ∧
    (chooseVoice VoiceOption.MALE demoState).isPlaying = false ∧
    (chooseVoice VoiceOption.MALE demoState).audioSource = none := by
  have h := voice_change_stops_and_clears_cache demoState VoiceOption.MALE
    (by decide)
  exact ⟨h.1, h.2.2.2.1, h.2.2.2.2.1⟩

/-- C6: stop is idempotent and always safe; the onended handler is detached
before the source is stopped, so no completion notification fires during the
stop (the fired flag is false), and no completion event applies to the stopped
state afterwards — in particular stop never changes the page or issues a
call. -/
theorem stop_idempotent_no_notification (s : State) :
    (stopPlaybackAux s).2 = false ∧
    stopPlayback (stopPlayback s) = stopPlayback s ∧
    onended (stopPlayback s) = stopPlayback s ∧
    (stopPlayback s).currentPage = s.currentPage ∧
    (stopPlayback s).synthCalls = s.synthCalls ∧
    (s.audioSource = none →
      stopPlayback s = { s with wordInterval := none, isPlaying := false,
                                highlightedWordIndex := -1 }) ∧
    (∀ nd, s.audioSource = some nd →
      { nd with attached := false, stopped := true } ∈
        (stopPlayback s).orphanSources) := by
  refine ⟨?_, ?_, ?_, by simp, by simp, ?_, ?_⟩
  · unfold stopPlaybackAux
    cases hs : s.audioSource <;> rfl
  · rcases s with ⟨pt, cp, vo, ip, ig, hw, ac, ap, src, orph, wi, plp, pps,
      pp, sc, dc⟩
    cases src <;> rfl
  · have hnone := stopPlayback_audioSource s
    unfold onended
    rw [hnone]
  · intro h0
    unfold stopPlayback stopPlaybackAux
    rw [h0]
  · intro nd hnd
    exact stopPlayback_stops_old s nd hnd

/-- Witness for C6 at a playing state with an attached handler. -/
theorem stop_idempotent_no_notification_witness :
    (stopPlaybackAux demoState).2 = false ∧
    stopPlayback (stopPlayback demoState) = stopPlayback demoState := by
  have h := stop_idempotent_no_notification demoState
  exact ⟨h.1, h.2.1⟩

/-- C7: on a blank (empty or whitespace-only) page, play resolves as a no-op:
the synthesis wrapper returns the empty sentinel without calling the external
service, and the play path issues no synthesis call, hands nothing to the
decoder, creates no pending play and no playback session — and the empty
sentinel never reached the decoder in any reachable state. -/
theorem empty_page_play_noop (ext : String → VoiceOption → Option String)
    (texts : List String) (s : State) (v : VoiceOption) (text : String)
    (h : Reachable texts s)
    (htext : s.pageTexts.getD s.currentPage "" = text)
    (hempty : blank text = true) (hgen : s.isGenerating = false) :
    generateSpeech ext text v = (some "", false) ∧
    (playStart s).synthCalls = s.synthCalls ∧
    (playStart s).decodeCalls = s.decodeCalls ∧
    (playStart s).pendingPlay = none ∧
    (playStart s).audioSource = none ∧
    (playStart s).isPlaying = false ∧
    (playStart s).isGenerating = false ∧
    "" ∉ (playStart s).decodeCalls := by
  obtain ⟨i1, i2, i3, i4, i5, i6, i7, i8, i9⟩ := reachable_inv texts s h
  have hpend : s.pendingPlay = none := by
    rw [hgen] at i1
    cases hp : s.pendingPlay with
    | none => rfl
    | some pf => rw [hp] at i1; simp at i1
  have hgs : generateSpeech ext text v = (some "", false) := by
    unfold generateSpeech
    rw [if_pos hempty]
  refine ⟨hgs, ?_⟩
  unfold playStart
  rw [if_neg (by simp [hgen])]
  dsimp only
  split
  next hcond =>
    exfalso
    have h2 := hcond.2
    simp only [stopPlayback_pageTexts, stopPlayback_currentPage] at h2
    rw [htext, hempty] at h2
    exact absurd h2 (by simp)
  next hc1 =>
    split
    next hcond =>
      exfalso
      have h2 := hcond.2
      simp only [stopPlayback_pageTexts, stopPlayback_currentPage] at h2
      rw [htext] at h2
      exact h2 (countWords_eq_zero_of_blank text hempty)
    next hcond =>
      refine ⟨by simp, by simp, by simp [hpend], by simp, by simp, by simp,
        ?_⟩
      simpa using i9


/-- Witness for C7 at a book whose first page is whitespace-only. -/
theorem empty_page_play_noop_witness :
    generateSpeech (fun _ _ => none) "   " VoiceOption.FEMALE =
      (some "", false) ∧
    (playStart (mountState emptyBook)).synthCalls =
      (mountState emptyBook).synthCalls := by
  have h := empty_page_play_noop (fun _ _ => none) emptyBook
    (mountState emptyBook) VoiceOption.FEMALE "   " Reachable.init
    (by decide) (by decide) (by decide)
  exact ⟨h.1, h.2.1⟩

/-- C4: playing a non-empty page twice in a row issues at most one external
synthesis call for it: a first play on a cache miss issues exactly one call
and suspends a fetch; resolving the fetch with a non-empty payload caches it
under the page; and from any state holding that cache entry, play issues no
further synthesis call. -/
theorem repeat_play_served_from_cache (s : State) (P : Nat) (text : String)
    (hpage : s.currentPage = P) (htext : s.pageTexts.getD P "" = text)
    (hne : blank text = false) (hgen : s.isGenerating = false)
    (hmiss : cacheLookup s.audioCache P = none) :
    (playStart s).synthCalls = s.synthCalls ++ [(text, s.voice)] ∧
    ∀ d : String, d ≠ "" →
      cacheLookup (fetchResolve (some d) (playStart s)).audioCache P =
        some d ∧
      ∀ t : State, t.currentPage = P → t.isGenerating = false →
        cacheLookup t.audioCache P = some d →
        (playStart t).synthCalls = t.synthCalls := by
  obtain ⟨hsynth, hpend, hcache⟩ :=
    playStart_miss s P text hpage htext hne hgen hmiss
  refine ⟨hsynth, ?_⟩
  intro d hd
  constructor
  · unfold fetchResolve
    rw [hpend]
    dsimp only
    rw [if_pos hd]
    split <;> simp
  · intro t hpt hgt hht
    exact playStart_hit_no_call t P d hd hpt hgt hht

/-- Witness for C4 at the freshly mounted two-page book, playing page 0. -/
theorem repeat_play_served_from_cache_witness :
    (playStart (mountState book2)).synthCalls =
      (mountState book2).synthCalls ++
        [("Hi there", (mountState book2).voice)] ∧
    cacheLookup (fetchResolve (some "X")
      (playStart (mountState book2))).audioCache 0 = some "X" := by
  have h := repeat_play_served_from_cache (mountState book2) 0 "Hi there"
    (by decide) (by decide) (by decide) (by decide) (by decide)
  exact ⟨h.1, (h.2 "X" (by decide)).1⟩

/-- C2: when the decode of a page with W >= 1 words resolves with duration
dur seconds (D = dur * 1000 ms), the word timer is created with the fixed
period D / W and the highlight starts at index 0; iterating the interval
callback advances the index by exactly one per tick up to W - 1 (so exactly
W - 1 advancing ticks fire), the index never goes negative and never passes
W - 1, the interval is cleared from the W-th callback on, and once the index
has reached W - 1 no further tick changes it. -/
theorem wordTimer_fixed_interval_advance (s : State) (pf : PendingPlay)
    (d : String) (dur : Rat) (hp : s.pendingPlay = some pf)
    (hd : pf.data = some d) (hW : 1 ≤ countWords pf.text) :
    (decodeResolve (some dur) s).wordInterval =
      some ⟨countWords pf.text, dur * 1000 / (countWords pf.text : Rat)⟩ ∧
    (decodeResolve (some dur) s).highlightedWordIndex = 0 ∧
    ∀ (W : Nat) (q : Rat) (t : State), 1 ≤ W →
      t.wordInterval = some ⟨W, q⟩ → t.highlightedWordIndex = 0 →
      ∀ n : Nat,
        (intervalTick^[n] t).highlightedWordIndex =
          min (n : Int) ((W : Int) - 1) ∧
        0 ≤ (intervalTick^[n] t).highlightedWordIndex ∧
        (intervalTick^[n] t).highlightedWordIndex ≤ (W : Int) - 1 ∧
        (W ≤ n → (intervalTick^[n] t).wordInterval = none) ∧
        ((W : Int) - 1 ≤ (intervalTick^[n] t).highlightedWordIndex →
          (intervalTick^[n + 1] t).highlightedWordIndex =
            (intervalTick^[n] t).highlightedWordIndex) := by
  refine ⟨?_, ?_, ?_⟩
  · unfold decodeResolve
    rw [hp]
    dsimp only
    rw [hd]
    dsimp only
    simp
  · unfold decodeResolve
    rw [hp]
    dsimp only
    rw [hd]
    dsimp only
    simp
  · intro W q t hWt hiv hidx n
    have hit := tick_iter W q t hWt hiv hidx
    rw [hit n]
    by_cases h1 : n < W
    · rw [if_pos h1]
      dsimp only
      refine ⟨by omega, by omega, by omega, fun hWn => absurd hWn (by omega),
        ?_⟩
      intro hge
      rw [hit (n + 1), if_neg (by omega)]
      dsimp only
      omega
    · rw [if_neg h1]
      dsimp only
      refine ⟨by omega, by omega, by omega, fun _ => rfl, ?_⟩
      intro hge
      rw [hit (n + 1), if_neg (by omega)]

/-- Witness for C2 at a pending decode of a two-word page. -/
theorem wordTimer_fixed_interval_advance_witness :
    (decodeResolve (some 2) timerState).wordInterval =
      some ⟨countWords "one two",
        2 * 1000 / (countWords "one two" : Rat)⟩ ∧
    (decodeResolve (some 2) timerState).highlightedWordIndex = 0 := by
  have h := wordTimer_fixed_interval_advance timerState
    ⟨0, "one two", some "PAYLOAD"⟩ "PAYLOAD" 2 rfl rfl (by decide)
  exact ⟨h.1, h.2.1⟩

/-- C3 (divergence from the spec scenario): over the book
["Hello world", "", "Third page here"] with auto-play enabled, playing page 0
issues exactly one synthesis call ("Hello world"); on completion the session
auto-advances to page 1, finds the empty text and makes no synthesis call —
but then it stays stuck on page 1: the state is quiescent (no pending fetch or
decode, no source, no interval, no pending preload), every internally
generated event is a no-op, so the session never advances to page 2 and never
synthesizes "Third page here". -/
theorem autoplay_empty_page_stuck :
    autoPlayTrace.currentPage = 1 ∧
    autoPlayTrace.synthCalls = [("Hello world", VoiceOption.FEMALE)] ∧
    autoPlayTrace.isPlaying = false ∧
    autoPlayTrace.isGenerating = false ∧
    autoPlayTrace.pendingPlay = none ∧
    autoPlayTrace.audioSource = none ∧
    autoPlayTrace.pendingPreloads = [] ∧
    (∀ r, fetchResolve r autoPlayTrace = autoPlayTrace) ∧
    (∀ r, decodeResolve r autoPlayTrace = autoPlayTrace) ∧
    (∀ p r, preloadResolve p r autoPlayTrace = autoPlayTrace) ∧
    intervalTick autoPlayTrace = autoPlayTrace ∧
    onended autoPlayTrace = autoPlayTrace := by
  have hpend : autoPlayTrace.pendingPlay = none := by decide
  have hsrc : autoPlayTrace.audioSource = none := by decide
  have hiv : autoPlayTrace.wordInterval = none := by decide
  have hpp : autoPlayTrace.pendingPreloads = [] := by decide
  refine ⟨by decide, by decide, by decide, by decide, hpend, hsrc, hpp,
    ?_, ?_, ?_, ?_, ?_⟩
  · intro r
    unfold fetchResolve
    rw [hpend]
  · intro r
    unfold decodeResolve
    rw [hpend]
  · intro p r
    unfold preloadResolve
    rw [hpp]
    rw [if_neg (List.not_mem_nil p)]
  · unfold intervalTick
    rw [hiv]
  · unfold onended
    rw [hsrc]

end SpeakBook
